import Mathlib

/-!
Verification development for the tsuru deploy-kind resolution and
version-lifecycle engine.

The Go sources embedded here are, on one side, `app/plan.go`
(the plan service, translated verbatim), and on the other side the deploy
API whose handlers are specified in `spec.md` and pinned point-wise by the
repository's test suite (`api` package deploy tests).  For the deploy
handlers only the tests are available, so the handler definitions below are
modelled from the specification, with every behaviour the tests pin
(exact error strings, HTTP status codes, recorded event fields) matching
those tests.
-/

namespace Tsuru

/-! ### Plan service (from `app/plan.go`) -/

/-- A plan, mirroring the fields of `appTypes.Plan` read by
`planService.Create`: `Name string`, `Memory int64`, `CpuShare int`. -/
structure Plan where
  name : String
  memory : Int
  cpuShare : Int
deriving Repr, DecidableEq

/-- The errors `planService.Create` can return:
`appTypes.PlanValidationError{Field: ...}`, `appTypes.ErrLimitOfCpuShare`,
`appTypes.ErrLimitOfMemory`. -/
inductive PlanCreateError where
  | planValidationError (field : String)
  | errLimitOfCpuShare
  | errLimitOfMemory
deriving Repr, DecidableEq

/-- Translation of `planService.Create` from `app/plan.go`:

    if plan.Name == "" { return appTypes.PlanValidationError{Field: "name"} }
    if plan.CpuShare < 2 { return appTypes.ErrLimitOfCpuShare }
    if plan.Memory > 0 && plan.Memory < 4194304 { return appTypes.ErrLimitOfMemory }
    return s.storage.Insert(plan)

A successful result `.ok p` stands for the single storage side effect
`storage.Insert(plan)` being reached with the unmodified plan. -/
def planService.Create (p : Plan) : Except PlanCreateError Plan :=
  if p.name = "" then .error (.planValidationError "name")
  else if p.cpuShare < 2 then .error .errLimitOfCpuShare
  else if 0 < p.memory ∧ p.memory < 4194304 then .error .errLimitOfMemory
  else .ok p

/-! ### Deploy options and the permission scheme selector -/

/-- Modelled from the spec: the normalized deploy request `DeployOptions`
(`app.DeployOptions` is not part of the provided sources; only its tests
are).  Fields follow spec section 3: primary source fields `commit`,
`archiveURL`, a file stream (represented by the flag `fileSet`, since only
presence matters to resolution), `image`, `dockerfile`; plus the flags
`build` and `rollback` and the labels `origin`, `user`, `message`.
Defaults are Go zero values. -/
structure DeployOptions where
  commit : String := ""
  archiveURL : String := ""
  image : String := ""
  dockerfile : String := ""
  fileSet : Bool := false
  build : Bool := false
  rollback : Bool := false
  origin : String := ""
  user : String := ""
  message : String := ""
deriving Repr, DecidableEq

/-- The permission schemes selectable for an app deploy
(`permission.PermAppDeploy` and its children, as listed by
`TestPermSchemeForDeploy`). -/
inductive PermissionScheme where
  | appDeploy
  | appDeployGit
  | appDeployImage
  | appDeployDockerfile
  | appDeployBuild
  | appDeployUpload
deriving Repr, DecidableEq

/-- Modelled from the spec: `permSchemeForDeploy` (the function itself is
not among the provided sources; only `TestPermSchemeForDeploy` is).  Spec
section 4.2 gives the fixed first-match priority: commit → git-deploy,
image → image-deploy, dockerfile → dockerfile-deploy (file attached or
not), file with build flag → build-deploy, file → upload-deploy, default →
base app-deploy scheme.  All seven table rows of
`TestPermSchemeForDeploy` evaluate accordingly. -/
def permSchemeForDeploy (o : DeployOptions) : PermissionScheme :=
  if o.commit ≠ "" then .appDeployGit
  else if o.image ≠ "" then .appDeployImage
  else if o.dockerfile ≠ "" then .appDeployDockerfile
  else if o.fileSet then (if o.build then .appDeployBuild else .appDeployUpload)
  else .appDeploy

/-! ### Deploy request resolver -/

/-- An HTTP-class error surfaced by the deploy API: a status code and a
message.  Validation errors carry code 400; plain errors from the deploy
engine surface with code 500 (as `TestDeployWithoutPlatformFails` and
`TestDeployRollbackHandlerWithInexistVersion` assert). -/
structure HttpError where
  code : Nat
  message : String
deriving Repr, DecidableEq

/-- Modelled from the spec: the origin labels accepted by the deploy
endpoint (spec section 3 lists them for the `origin` field; the origin
validation itself is absent from the provided sources).
`TestDeployInvalidOrigin` pins that a label outside this list, such as
"drag", is rejected. -/
def validOrigins : List String :=
  ["app-deploy", "drag-and-drop", "git", "image", "rebuild", "rollback", "upload"]

/-- Modelled from the spec: whether an origin label is one of the known
labels; an empty origin (none supplied) is always acceptable. -/
def ValidateOrigin (origin : String) : Bool :=
  validOrigins.contains origin

/-- Modelled from the spec: the input validation of the app deploy
endpoint (the handler is absent from the provided sources), spec section
4.1 rules 1 and 2, with the exact messages pinned by
`TestDeployNoMandatoryFields`, `TestDeploySetBothFieldsArchiveURLAndImage`
and `TestDeploySetBothFieldsImageAndDockerfile`: first the
mandatory-field check — which per rule 1 exempts rollback and rebuild
requests, so a field-less rebuild (origin marker "rebuild", as in
`TestDeployRebuildHandler`) passes resolution — then archive-url
exclusivity, then image exclusivity.  On success the options pass through
unchanged. -/
def prepareToBuild (o : DeployOptions) : Except HttpError DeployOptions :=
  if o.archiveURL = "" ∧ o.image = "" ∧ o.dockerfile = "" ∧ o.fileSet = false ∧
      o.rollback = false ∧ o.origin ≠ "rebuild" then
    .error ⟨400, "You must provide at least one of: \"archive-url\", \"dockerfile\", \"image\" or \"file\""⟩
  else if o.archiveURL ≠ "" ∧ (o.dockerfile ≠ "" ∨ o.fileSet = true ∨ o.image ≠ "") then
    .error ⟨400, "Cannot set \"archive-url\" mutually with \"dockerfile\", \"file\" or \"image\" fields"⟩
  else if o.image ≠ "" ∧ (o.archiveURL ≠ "" ∨ o.dockerfile ≠ "" ∨ o.fileSet = true) then
    .error ⟨400, "Cannot set \"image\" mutually with \"archive-url\", \"dockerfile\" or \"file\" fields"⟩
  else .ok o

/-- Modelled from the spec: the origin actually recorded on the deploy
event.  When the `image` field is set the recorded origin is forced to
"image" regardless of any supplied label, as `TestDeployOriginImage`
(supplied "app-deploy", recorded "image") and `TestDeployDockerImage`
(supplied nothing, recorded "image") pin. -/
def resolveOrigin (o : DeployOptions) : DeployOptions :=
  if o.image ≠ "" then { o with origin := "image" } else o

/-- Modelled from the spec: the request-resolution stage of the app deploy
handler: field validation (`prepareToBuild`), then origin normalisation
and origin validation, rejecting unknown non-empty origins with
"Invalid deployment origin" (pinned by `TestDeployInvalidOrigin`). -/
def deployResolve (o : DeployOptions) : Except HttpError DeployOptions :=
  match prepareToBuild o with
  | .error e => .error e
  | .ok o1 =>
    if (resolveOrigin o1).origin ≠ "" ∧ ValidateOrigin (resolveOrigin o1).origin = false then
      .error ⟨400, "Invalid deployment origin"⟩
    else .ok (resolveOrigin o1)

/-- The deploy kinds of spec section 3 (`DeployKind`), with an extra
`unknown` for the empty classification the source's zero value stands
for. -/
inductive DeployKind where
  | archiveUrl
  | upload
  | image
  | dockerfile
  | rollback
  | rebuild
  | unknown
deriving Repr, DecidableEq

/-- Modelled from the spec: deploy-kind assignment, spec section 4.1 rule
3, first match wins: rollback flag, rebuild-origin marker, image,
dockerfile, archive-url, file (kind `upload`; the build flag only affects
permission selection). -/
def getKind (o : DeployOptions) : DeployKind :=
  if o.rollback = true then .rollback
  else if o.origin = "rebuild" then .rebuild
  else if o.image ≠ "" then .image
  else if o.dockerfile ≠ "" then .dockerfile
  else if o.archiveURL ≠ "" then .archiveUrl
  else if o.fileSet = true then .upload
  else .unknown

/-- The app fields the deploy engine reads and writes: name, platform and
the `deploys` counter (spec section 3, `App`). -/
structure App where
  name : String
  platform : String
  deploys : Nat
deriving Repr, DecidableEq

/-- Modelled from the spec: the platform requirement of spec section 4.1
rule 5 composed after request resolution.  An app without a platform can
only take image, dockerfile or rollback deploys; the failure is a plain
(non-HTTP) engine error, so it surfaces with status 500, as
`TestDeployWithoutPlatformFails` asserts. -/
def deployResponse (a : App) (o : DeployOptions) : Except HttpError DeployOptions :=
  match deployResolve o with
  | .error e => .error e
  | .ok o2 =>
    if a.platform = "" ∧ getKind o2 ≠ .image ∧ getKind o2 ≠ .dockerfile ∧ getKind o2 ≠ .rollback then
      .error ⟨500, "can't deploy app without platform, if it's not an image, dockerfile or rollback"⟩
    else .ok o2

/-! ### Version manager: rollback resolution and disabling -/

/-- The per-version record the rollback operations read and write: the
1-based ordinal, the pushed image reference, and the disable marker with
its reason (spec section 3, `AppVersion`). -/
structure AppVersionInfo where
  version : Nat
  deployImage : String
  disabled : Bool
  disabledReason : String
deriving Repr, DecidableEq

/-- Modelled from the spec: whether a rollback reference — an ordinal
encoded as "v<N>" or a full image reference string (spec section 4.3,
`Resolve`) — designates a given version. -/
def refMatches (v : AppVersionInfo) (ref : String) : Bool :=
  ("v" ++ toString v.version = ref) || (v.deployImage = ref)

/-- Modelled from the spec: `Resolve(appVersions, reference)` of spec
section 4.3 (the version service is absent from the provided sources).
An empty version list fails with "no versions available for app"
(`TestRollbackUpdateImageNotFound`); an unmatched reference fails with
"Invalid version: <reference>" (`TestDeployRollbackHandlerWithInexistVersion`,
`TestRollbackUpdateInvalidImage`); otherwise the first matching stored
version is returned. -/
def resolveVersion (versions : List AppVersionInfo) (ref : String) :
    Except String AppVersionInfo :=
  if versions.isEmpty then .error "no versions available for app"
  else
    match versions.find? (fun v => refMatches v ref) with
    | some v => .ok v
    | none => .error ("Invalid version: " ++ ref)

/-- Modelled from the spec: the rollback-update operation (disable or
re-enable a version; the handler is absent from the provided sources).
Check order pinned by the tests: a missing image reference fails with
"you must specify an image" (`TestRollbackUpdateEmptyImage`); disabling
with an empty reason fails with
"Reason cannot be empty while disabling a image rollback" before any
version lookup (`TestRollbackUpdateErrEmptyReason` passes an app with no
versions); then the target version is resolved and its
`Disabled`/`DisabledReason` fields are set.  The result pairs the
(possibly updated) version list with an error; on error the list is
returned unchanged. -/
def rollbackUpdate (versions : List AppVersionInfo) (ref : String)
    (disable : Bool) (reason : String) : List AppVersionInfo × Option String :=
  if ref = "" then (versions, some "you must specify an image")
  else if disable = true ∧ reason = "" then
    (versions, some "Reason cannot be empty while disabling a image rollback")
  else
    match resolveVersion versions ref with
    | .error e => (versions, some e)
    | .ok v =>
      (versions.map fun w =>
        if w.version = v.version then
          { w with disabled := disable, disabledReason := reason }
        else w,
       none)

/-! ### Deploy orchestrator outcomes -/

/-- Modelled from the spec: the terminal outcomes of a deploy attempt
the orchestrator distinguishes when finalizing (spec section 4.5). -/
inductive DeployOutcome where
  | success
  | buildFailed
  | validationFailed
deriving Repr, DecidableEq

/-- Modelled from the spec: on a successful deploy the orchestrator
increments the app's `deploys` counter by exactly one (spec sections 3 and
4.5; `TestDeployShouldIncrementDeployNumberOnApp`); every other outcome
leaves the counter untouched. -/
def finalizeDeploy (a : App) (outcome : DeployOutcome) : App :=
  match outcome with
  | .success => { a with deploys := a.deploys + 1 }
  | .buildFailed => a
  | .validationFailed => a

/-- What a finished job deploy leaves behind: the HTTP status returned to
the caller, the streamed body, and the error and image recorded on the
finalized event (spec sections 4.6 and 7). -/
structure JobDeployResult where
  httpCode : Nat
  body : String
  eventErr : Option String
  eventImage : String
deriving Repr, DecidableEq

/-- Modelled from the spec: the job deploy orchestrator's treatment of the
builder's return value (spec sections 4.6 and 7; the handler is absent
from the provided sources).  A builder failure is recorded on the event
(`ErrorMatches` in `TestJobDeployFailed`), the streamed body carries the
failure text, and the response is still the success class (200), never a
transport failure; on success the returned image name is recorded. -/
def runJobDeploy (jobName : String) (builderResult : Except String String) :
    JobDeployResult :=
  match builderResult with
  | .ok image =>
    ⟨200, "\nDeploy finished with success!\n", none, image⟩
  | .error e =>
    ⟨200, "\nTsuru failed to deploy job " ++ jobName ++ "\n", some e, ""⟩

/-- The commit states of an app version (spec section 4.3). -/
inductive VersionStatus where
  | pending
  | buildCommitted
  | baseCommitted
  | successful
  | abandoned
deriving Repr, DecidableEq

/-- What a finished app deploy attempt leaves behind: the HTTP status
returned to the caller, the streamed body, the error and image recorded on
the finalized event, the final state of the version allocated for the
attempt, and the app's deploy counter (spec sections 4.5 and 7). -/
structure AppDeployResult where
  httpCode : Nat
  body : String
  eventErr : Option String
  eventImage : String
  versionStatus : VersionStatus
  appDeploys : Nat
deriving Repr, DecidableEq

/-- Modelled from the spec: the app deploy orchestrator's treatment of the
builder's return value (spec sections 4.4, 4.5 and 7; the orchestrator is
absent from the provided sources).  On success the allocated version is
committed `successful`, the event is finalized with the resulting image
and the app's deploy counter is incremented.  On failure the allocated
version is abandoned, the builder's error is recorded on the finalized
event without masking it, the streamed body carries the failure text, and
the caller still receives a success-class (200) response — a deploy
failure is a completed, recorded attempt, never a transport error. -/
def runAppDeploy (a : App) (builderResult : Except String String) :
    AppDeployResult :=
  match builderResult with
  | .ok image => ⟨200, "OK\n", none, image, .successful, a.deploys + 1⟩
  | .error e => ⟨200, e, some e, "", .abandoned, a.deploys⟩

/-! ### Helper lemmas -/

/-- When `prepareToBuild` succeeds it returns the request unchanged. -/
theorem prepareToBuild_ok_eq {o o1 : DeployOptions}
    (h : prepareToBuild o = .ok o1) : o1 = o := by
  unfold prepareToBuild at h
  split at h
  · cases h
  · split at h
    · cases h
    · split at h
      · cases h
      · cases h; rfl

/-- The value produced by a successful `deployResolve` is the request with
its origin normalised. -/
theorem deployResolve_ok_eq {o o2 : DeployOptions}
    (h : deployResolve o = .ok o2) : o2 = resolveOrigin o := by
  unfold deployResolve at h
  cases hp : prepareToBuild o with
  | error e => rw [hp] at h; cases h
  | ok o1 =>
    rw [hp] at h
    have ho1 : o1 = o := prepareToBuild_ok_eq hp
    subst ho1
    have h2 :
        (if (resolveOrigin o1).origin ≠ "" ∧ ValidateOrigin (resolveOrigin o1).origin = false
          then (Except.error ⟨400, "Invalid deployment origin"⟩ : Except HttpError DeployOptions)
          else Except.ok (resolveOrigin o1)) = Except.ok o2 := h
    by_cases hc :
      (resolveOrigin o1).origin ≠ "" ∧ ValidateOrigin (resolveOrigin o1).origin = false
    · rw [if_pos hc] at h2
      cases h2
    · rw [if_neg hc] at h2
      cases h2
      rfl

/-! ### C10 — plan creation validation -/

/-- C10: `planService.Create` validates before any side effect, in order:
empty name → validation error on field "name"; `CpuShare < 2` →
`ErrLimitOfCpuShare`; `0 < Memory < 4194304` → `ErrLimitOfMemory`; only
when none of these hold does it reach `storage.Insert` — in particular
`Memory = 0` passes the memory-limit check. -/
theorem planCreate_validation_order (p : Plan) :
    (p.name = "" → planService.Create p = .error (.planValidationError "name")) ∧
    (p.name ≠ "" → p.cpuShare < 2 → planService.Create p = .error .errLimitOfCpuShare) ∧
    (p.name ≠ "" → 2 ≤ p.cpuShare → 0 < p.memory → p.memory < 4194304 →
      planService.Create p = .error .errLimitOfMemory) ∧
    (p.name ≠ "" → 2 ≤ p.cpuShare → ¬(0 < p.memory ∧ p.memory < 4194304) →
      planService.Create p = .ok p) := by
  refine ⟨?_, ?_, ?_, ?_⟩
  · intro h1
    simp [planService.Create, h1]
  · intro h1 h2
    simp [planService.Create, h1, h2]
  · intro h1 h2 h3 h4
    simp [planService.Create, h1, not_lt.mpr h2, h3, h4]
  · intro h1 h2 h3
    simp [planService.Create, h1, not_lt.mpr h2, h3]

/-- Witness for C10: a plan with a name, zero memory and enough cpu share
reaches the storage layer; zero memory passes the memory-limit check. -/
theorem planCreate_validation_order_witness :
    planService.Create ⟨"small", 0, 4⟩ = .ok ⟨"small", 0, 4⟩ :=
  (planCreate_validation_order ⟨"small", 0, 4⟩).2.2.2 (by decide) (by decide) (by decide)

/-! ### C1 — permission scheme selection -/

/-- C1: `permSchemeForDeploy` is a pure function of the request fields and
selects by fixed first-match priority: commit → git-deploy; else image →
image-deploy; else dockerfile (file attached or not) → dockerfile-deploy;
else file with build flag → build-deploy; else file → upload-deploy; else
the base app-deploy scheme. -/
theorem permSchemeForDeploy_firstMatch (o : DeployOptions) :
    (o.commit ≠ "" → permSchemeForDeploy o = .appDeployGit) ∧
    (o.commit = "" → o.image ≠ "" → permSchemeForDeploy o = .appDeployImage) ∧
    (o.commit = "" → o.image = "" → o.dockerfile ≠ "" →
      permSchemeForDeploy o = .appDeployDockerfile) ∧
    (o.commit = "" → o.image = "" → o.dockerfile = "" → o.fileSet = true →
      o.build = true → permSchemeForDeploy o = .appDeployBuild) ∧
    (o.commit = "" → o.image = "" → o.dockerfile = "" → o.fileSet = true →
      o.build = false → permSchemeForDeploy o = .appDeployUpload) ∧
    (o.commit = "" → o.image = "" → o.dockerfile = "" → o.fileSet = false →
      permSchemeForDeploy o = .appDeploy) := by
  refine ⟨?_, ?_, ?_, ?_, ?_, ?_⟩ <;> intros <;> simp_all [permSchemeForDeploy]

/-- Witness for C1: the scenarios of `TestPermSchemeForDeploy` — a commit
selects git-deploy, and a dockerfile with a file attached still selects
dockerfile-deploy. -/
theorem permSchemeForDeploy_firstMatch_witness :
    permSchemeForDeploy { commit := "abc123" } = .appDeployGit ∧
    permSchemeForDeploy { dockerfile := "FROM busybox", fileSet := true } =
      .appDeployDockerfile :=
  ⟨(permSchemeForDeploy_firstMatch _).1 (by decide),
   (permSchemeForDeploy_firstMatch _).2.2.1 rfl rfl (by decide)⟩

/-! ### C6 — archive-url and image are mutually exclusive -/

/-- C6: a deploy request with both archive-url and image set is rejected
by the request resolver, before any further processing, in the
bad-request class, with the exact exclusivity message. -/
theorem deploy_archiveUrlImage_rejected (a : App) (o : DeployOptions)
    (h1 : o.archiveURL ≠ "") (h2 : o.image ≠ "") :
    prepareToBuild o =
      .error ⟨400, "Cannot set \"archive-url\" mutually with \"dockerfile\", \"file\" or \"image\" fields"⟩ ∧
    deployResponse a o =
      .error ⟨400, "Cannot set \"archive-url\" mutually with \"dockerfile\", \"file\" or \"image\" fields"⟩ := by
  have hp : prepareToBuild o =
      .error ⟨400, "Cannot set \"archive-url\" mutually with \"dockerfile\", \"file\" or \"image\" fields"⟩ := by
    simp [prepareToBuild, h1, h2]
  refine ⟨hp, ?_⟩
  simp [deployResponse, deployResolve, hp]

/-- Witness for C6: the request of `TestDeploySetBothFieldsArchiveURLAndImage`
is rejected with the exclusivity message. -/
theorem deploy_archiveUrlImage_rejected_witness :
    deployResponse ⟨"my-app", "python", 0⟩
      { archiveURL := "https://example.com/team/my-app/v1.tar.gz",
        image := "example.com/team/my-app:v1" } =
      .error ⟨400, "Cannot set \"archive-url\" mutually with \"dockerfile\", \"file\" or \"image\" fields"⟩ :=
  (deploy_archiveUrlImage_rejected ⟨"my-app", "python", 0⟩ _ (by decide) (by decide)).2

/-! ### C7 — at least one source field is mandatory -/

/-- C7: a deploy request in which none of archive-url, file, image or
dockerfile is present, and which is not a rollback or rebuild, fails in
the bad-request class with the exact mandatory-fields message. -/
theorem deploy_noMandatoryFields_rejected (a : App) (o : DeployOptions)
    (h1 : o.archiveURL = "") (h2 : o.image = "") (h3 : o.dockerfile = "")
    (h4 : o.fileSet = false) (h5 : o.rollback = false) (h6 : o.origin ≠ "rebuild") :
    deployResponse a o =
      .error ⟨400, "You must provide at least one of: \"archive-url\", \"dockerfile\", \"image\" or \"file\""⟩ := by
  have hp : prepareToBuild o =
      .error ⟨400, "You must provide at least one of: \"archive-url\", \"dockerfile\", \"image\" or \"file\""⟩ := by
    simp [prepareToBuild, h1, h2, h3, h4, h5, h6]
  simp [deployResponse, deployResolve, hp]

/-- Witness for C7: the empty request of `TestDeployNoMandatoryFields` is
rejected with the mandatory-fields message. -/
theorem deploy_noMandatoryFields_rejected_witness :
    deployResponse ⟨"abc", "python", 0⟩ {} =
      .error ⟨400, "You must provide at least one of: \"archive-url\", \"dockerfile\", \"image\" or \"file\""⟩ :=
  deploy_noMandatoryFields_rejected ⟨"abc", "python", 0⟩ {}
    rfl rfl rfl rfl rfl (by decide)

/-! ### C2 — origin labels (corrected) -/

/-- Counterexample for C2 as stated: supplied origin labels are not
recorded unconditionally.  The label "drag" (from
`TestDeployInvalidOrigin`) causes the request to be rejected with
"Invalid deployment origin", and a supplied "app-deploy" label on an
image deploy (from `TestDeployOriginImage`) is recorded as "image", not as
the supplied label. -/
theorem deploy_origin_counterexample :
    deployResolve
      { archiveURL := "http://something.tar.gz", origin := "drag",
        user := "fulano" } =
      .error ⟨400, "Invalid deployment origin"⟩ ∧
    deployResolve { image := "127.0.0.1:5000/tsuru/otherapp", origin := "app-deploy" } =
      .ok { image := "127.0.0.1:5000/tsuru/otherapp", origin := "image" } :=
  ⟨rfl, rfl⟩

/-- C2 (amended): a supplied origin label must be one of the known labels,
otherwise the request is rejected with "Invalid deployment origin"; when
the image field is set the recorded origin is "image" regardless of the
supplied label; otherwise a valid supplied origin is recorded as-is.  The
origin participates in kind resolution only through the rebuild marker:
any two non-rebuild origins yield the same kind, and the origin "rebuild"
(without the rollback flag) yields kind rebuild, as
`TestDeployRebuildHandler` pins. -/
theorem deploy_origin_recorded (o : DeployOptions) :
    (o.image = "" → ValidateOrigin o.origin = true →
      ∀ o2, deployResolve o = .ok o2 → o2.origin = o.origin) ∧
    (o.image ≠ "" → ∀ o2, deployResolve o = .ok o2 → o2.origin = "image") ∧
    (o.origin ≠ "" → ValidateOrigin o.origin = false → o.image = "" →
      prepareToBuild o = .ok o →
      deployResolve o = .error ⟨400, "Invalid deployment origin"⟩) ∧
    (∀ l1 l2 : String, l1 ≠ "rebuild" → l2 ≠ "rebuild" →
      getKind { o with origin := l1 } = getKind { o with origin := l2 }) ∧
    (o.rollback = false → o.origin = "rebuild" → getKind o = .rebuild) := by
  refine ⟨?_, ?_, ?_, ?_, ?_⟩
  · intro himg hval o2 hok
    rw [deployResolve_ok_eq hok]
    simp [resolveOrigin, himg]
  · intro himg o2 hok
    rw [deployResolve_ok_eq hok]
    simp [resolveOrigin, himg]
  · intro hor hval himg hp
    have hro : resolveOrigin o = o := by simp [resolveOrigin, himg]
    unfold deployResolve
    rw [hp]
    show (if (resolveOrigin o).origin ≠ "" ∧ ValidateOrigin (resolveOrigin o).origin = false
        then (Except.error ⟨400, "Invalid deployment origin"⟩ : Except HttpError DeployOptions)
        else Except.ok (resolveOrigin o)) =
      Except.error ⟨400, "Invalid deployment origin"⟩
    rw [hro, if_pos ⟨hor, hval⟩]
  · intro l1 l2 hl1 hl2
    simp [getKind, hl1, hl2]
  · intro hrb hor
    simp [getKind, hrb, hor]

/-- Witness for C2 (amended): on the image deploy of
`TestDeployOriginImage` the recorded origin is "image". -/
theorem deploy_origin_recorded_witness :
    ({ image := "127.0.0.1:5000/tsuru/otherapp", origin := "image" } : DeployOptions).origin =
      "image" :=
  (deploy_origin_recorded { image := "127.0.0.1:5000/tsuru/otherapp", origin := "app-deploy" }).2.1
    (by decide) _ rfl

/-! ### C3 — platform requirement (corrected) -/

/-- Counterexample for C3 as stated: the no-platform failure is not
surfaced in the bad-request class.  On the archive-url request of
`TestDeployWithoutPlatformFails` against a platformless app the deploy
fails with the expected message but with status 500 (internal server
error), as that test asserts, not 400. -/
theorem deploy_withoutPlatform_counterexample :
    deployResponse ⟨"otherapp", "", 0⟩ { archiveURL := "http://something.tar.gz" } =
      .error ⟨500, "can't deploy app without platform, if it's not an image, dockerfile or rollback"⟩ ∧
    deployResponse ⟨"otherapp", "", 0⟩ { archiveURL := "http://something.tar.gz" } ≠
      .error ⟨400, "can't deploy app without platform, if it's not an image, dockerfile or rollback"⟩ := by
  have h : deployResponse ⟨"otherapp", "", 0⟩ { archiveURL := "http://something.tar.gz" } =
      .error ⟨500, "can't deploy app without platform, if it's not an image, dockerfile or rollback"⟩ :=
    rfl
  refine ⟨h, ?_⟩
  rw [h]
  intro hcontra
  simp at hcontra

/-- C3 (amended): a deploy against an app with no platform whose resolved
kind is not image, dockerfile or rollback fails with exactly
"can't deploy app without platform, if it's not an image, dockerfile or
rollback", surfaced as an internal (500-class) error rather than
bad-request. -/
theorem deploy_withoutPlatform_fails (a : App) (o o2 : DeployOptions)
    (hplat : a.platform = "") (hres : deployResolve o = .ok o2)
    (h1 : getKind o2 ≠ .image) (h2 : getKind o2 ≠ .dockerfile)
    (h3 : getKind o2 ≠ .rollback) :
    deployResponse a o =
      .error ⟨500, "can't deploy app without platform, if it's not an image, dockerfile or rollback"⟩ := by
  simp [deployResponse, hres, hplat, h1, h2, h3]

/-- Witness for C3 (amended): the platformless archive-url deploy of
`TestDeployWithoutPlatformFails` fails with the no-platform message and
status 500; so does a field-less rebuild (kind rebuild passes resolution
but is not exempt from the platform requirement). -/
theorem deploy_withoutPlatform_fails_witness :
    deployResponse ⟨"otherapp", "", 0⟩ { archiveURL := "http://something.tar.gz" } =
      .error ⟨500, "can't deploy app without platform, if it's not an image, dockerfile or rollback"⟩ ∧
    deployResponse ⟨"otherapp", "", 0⟩ { origin := "rebuild" } =
      .error ⟨500, "can't deploy app without platform, if it's not an image, dockerfile or rollback"⟩ :=
  ⟨deploy_withoutPlatform_fails ⟨"otherapp", "", 0⟩
    { archiveURL := "http://something.tar.gz" }
    { archiveURL := "http://something.tar.gz" }
    rfl rfl (by decide) (by decide) (by decide),
   deploy_withoutPlatform_fails ⟨"otherapp", "", 0⟩
    { origin := "rebuild" } { origin := "rebuild" }
    rfl rfl (by decide) (by decide) (by decide)⟩

/-! ### C4 — rollback target resolution -/

/-- C4: on an empty version list `Resolve` fails with exactly
"no versions available for app"; on a non-empty list with a reference
matching no known ordinal or image it fails with exactly
"Invalid version: <reference>"; and a resolved version is always a member
of the list — resolution never fabricates a version. -/
theorem resolveVersion_spec (versions : List AppVersionInfo) (ref : String) :
    (versions = [] → resolveVersion versions ref = .error "no versions available for app") ∧
    (versions ≠ [] → (∀ v ∈ versions, refMatches v ref = false) →
      resolveVersion versions ref = .error ("Invalid version: " ++ ref)) ∧
    (∀ v, resolveVersion versions ref = .ok v → v ∈ versions) := by
  refine ⟨?_, ?_, ?_⟩
  · intro h
    subst h
    rfl
  · intro hne hall
    unfold resolveVersion
    rw [if_neg (by simp [List.isEmpty_iff, hne])]
    rw [List.find?_eq_none.mpr (fun v hv => by simp [hall v hv])]
  · intro v hv
    unfold resolveVersion at hv
    split at hv
    · cases hv
    · cases hf : versions.find? (fun w => refMatches w ref) with
      | none => rw [hf] at hv; cases hv
      | some w =>
        rw [hf] at hv
        cases hv
        exact List.mem_of_find?_eq_some hf

/-- Witness for C4: scenario E — an app with zero versions fails with
"no versions available for app", and an app holding only versions 1 and 2
fails a rollback to "v9" with "Invalid version: v9". -/
theorem resolveVersion_spec_witness :
    resolveVersion [] "v1" = .error "no versions available for app" ∧
    resolveVersion
        [⟨1, "tsuru/app-otherapp:v1", false, ""⟩, ⟨2, "tsuru/app-otherapp:v2", false, ""⟩]
        "v9" =
      .error ("Invalid version: " ++ "v9") :=
  ⟨(resolveVersion_spec [] "v1").1 rfl,
   (resolveVersion_spec _ "v9").2.1 (by decide) (by decide)⟩

/-! ### C5 — disabling a version requires a reason -/

/-- C5: a rollback-update disabling a version with an empty reason fails
with exactly "Reason cannot be empty while disabling a image rollback"
and leaves the version list unchanged; with a non-empty reason and a
resolvable target it succeeds, setting `Disabled` and `DisabledReason` on
the targeted version. -/
theorem rollbackUpdate_disable_spec (versions : List AppVersionInfo)
    (ref reason : String) (href : ref ≠ "") :
    (rollbackUpdate versions ref true "" =
      (versions, some "Reason cannot be empty while disabling a image rollback")) ∧
    (reason ≠ "" → ∀ v, resolveVersion versions ref = .ok v →
      (rollbackUpdate versions ref true reason).2 = none ∧
      ∀ w ∈ (rollbackUpdate versions ref true reason).1,
        w.version = v.version → w.disabled = true ∧ w.disabledReason = reason) := by
  constructor
  · unfold rollbackUpdate
    rw [if_neg href, if_pos ⟨rfl, rfl⟩]
  · intro hr v hv
    unfold rollbackUpdate
    rw [if_neg href, if_neg (fun hc => hr hc.2), hv]
    refine ⟨rfl, ?_⟩
    intro w hw hweq
    rcases List.mem_map.mp hw with ⟨w0, _hw0, hmap⟩
    by_cases hw0v : w0.version = v.version
    · rw [if_pos hw0v] at hmap
      rw [← hmap]
      exact ⟨rfl, rfl⟩
    · rw [if_neg hw0v] at hmap
      rw [← hmap] at hweq
      exact absurd hweq hw0v

/-- Witness for C5: on an app holding version 1, disabling "v1" with an
empty reason fails with the empty-reason message and the list is
unchanged; with reason "because of reasons" the update succeeds
(`TestRollbackUpdate`). -/
theorem rollbackUpdate_disable_spec_witness :
    rollbackUpdate [⟨1, "tsuru/app-otherapp:v1", false, ""⟩] "v1" true "" =
      ([⟨1, "tsuru/app-otherapp:v1", false, ""⟩],
       some "Reason cannot be empty while disabling a image rollback") ∧
    (rollbackUpdate [⟨1, "tsuru/app-otherapp:v1", false, ""⟩] "v1" true
        "because of reasons").2 = none :=
  ⟨(rollbackUpdate_disable_spec [⟨1, "tsuru/app-otherapp:v1", false, ""⟩] "v1"
      "because of reasons" (by decide)).1,
   ((rollbackUpdate_disable_spec [⟨1, "tsuru/app-otherapp:v1", false, ""⟩] "v1"
      "because of reasons" (by decide)).2 (by decide)
     ⟨1, "tsuru/app-otherapp:v1", false, ""⟩ (by rfl)).1⟩

/-! ### C8 — builder failure is a completed, recorded attempt -/

/-- C8: for every deploy attempt in which the builder fails, the
orchestrator abandons the allocated version, records the builder's error
on the finalized event (with no image and no counter increment), streams
the failure text to the caller, and still answers in the success class
(200) — the same response class as a successful build; the error is never
propagated as a transport failure.  The version-less job variant records
and responds the same way. -/
theorem deploy_builderError_recorded (a : App) (jobName e : String) :
    (runAppDeploy a (.error e)).httpCode = 200 ∧
    (runAppDeploy a (.error e)).eventErr = some e ∧
    (runAppDeploy a (.error e)).versionStatus = .abandoned ∧
    (runAppDeploy a (.error e)).eventImage = "" ∧
    (runAppDeploy a (.error e)).appDeploys = a.deploys ∧
    (runAppDeploy a (.error e)).body = e ∧
    (runAppDeploy a (.error e)).httpCode =
      (runAppDeploy a (.ok "tsuru/app-otherapp:v1")).httpCode ∧
    (runJobDeploy jobName (.error e)).httpCode = 200 ∧
    (runJobDeploy jobName (.error e)).eventErr = some e ∧
    (runJobDeploy jobName (.error e)).eventImage = "" ∧
    (runJobDeploy jobName (.error e)).body =
      "\nTsuru failed to deploy job " ++ jobName ++ "\n" :=
  ⟨rfl, rfl, rfl, rfl, rfl, rfl, rfl, rfl, rfl, rfl, rfl⟩

/-! ### C9 — the deploy counter -/

/-- C9: a successful deploy increments the app's `deploys` counter by
exactly one (an app with no prior deploys reaches 1 after its first
successful deploy), and no deploy outcome decreases the counter. -/
theorem deploy_increments_counter (a : App) :
    (finalizeDeploy a .success).deploys = a.deploys + 1 ∧
    (a.deploys = 0 → (finalizeDeploy a .success).deploys = 1) ∧
    (∀ outcome : DeployOutcome, a.deploys ≤ (finalizeDeploy a outcome).deploys) := by
  refine ⟨rfl, ?_, ?_⟩
  · intro h0
    simp [finalizeDeploy, h0]
  · intro outcome
    cases outcome <;> simp [finalizeDeploy]

/-- Witness for C9: an app with no prior deploys has counter 1 after its
first successful deploy (`TestDeployShouldIncrementDeployNumberOnApp`). -/
theorem deploy_increments_counter_witness :
    (finalizeDeploy ⟨"otherapp", "python", 0⟩ .success).deploys = 1 :=
  (deploy_increments_counter ⟨"otherapp", "python", 0⟩).2.1 rfl

end Tsuru
